import Mathlib

/-!
# Verification of the STM32 Smart Sensor Hub runtime core

Shallow embedding of the repository's core modules, translated from the C
sources:

* `log.c` / `log.h` — the log gate (`s_minLevel`, `s_enabled`, `s_logUart`)
  and the emission path `Log_Print`;
* `power_manager.c` / `power_manager.h` — the power mode controller
  (`s_currentMode`, `s_requestedMode`, `s_idleCycles`);
* `app_task_manager.c` — the cooperative scheduler
  (`AppTaskManager_RunOnce` over the registered task list);
* `cli.c` — the command interpreter (`CLI_HandleLine`, `CLI_Trim`,
  `CLI_ToLower`) acting on the log gate and power manager state.

Machine integers (`uint32_t`) are modelled as `Nat` with explicit reduction
modulo `2 ^ 32` where overflow can occur (elapsed-time subtraction, the
idle-cycle increment).  I/O (UART transmission) is modelled by its observable
effect: which response is produced, whether a log line is emitted, whether
the redraw hook `CLI_OnExternalOutput` is invoked.
-/

namespace SensorHub

/-- `LogLevel_t` from `log.h`: `LOG_LEVEL_DEBUG = 0`, then INFO, WARN, ERROR. -/
inductive LogLevel_t : Type
  | debug
  | info
  | warn
  | error
deriving DecidableEq, Repr

/-- Numeric value of the C enum constant (`LOG_LEVEL_DEBUG = 0U`, ...). -/
def LogLevel_t.toNat : LogLevel_t → Nat
  | .debug => 0
  | .info => 1
  | .warn => 2
  | .error => 3

/-- `PowerMode_t` from `power_manager.h`: `POWER_MODE_ACTIVE = 0`, then
IDLE, SLEEP, STOP. -/
inductive PowerMode_t : Type
  | active
  | idle
  | sleep
  | stop
deriving DecidableEq, Repr

/-- Numeric value of the C enum constant (`POWER_MODE_ACTIVE = 0U`, ...). -/
def PowerMode_t.toNat : PowerMode_t → Nat
  | .active => 0
  | .idle => 1
  | .sleep => 2
  | .stop => 3

/-! ## Power manager (`power_manager.c`) -/

/-- The power manager's module state: the statics `s_currentMode`,
`s_requestedMode` and `s_idleCycles` of `power_manager.c`. -/
structure PowerState : Type where
  currentMode : PowerMode_t
  requestedMode : PowerMode_t
  idleCycles : Nat
deriving DecidableEq, Repr

/-- The statics' initializers in `power_manager.c`, which coincide with what
`PowerManager_Init` re-establishes: ACTIVE / ACTIVE / 0. -/
def PowerManager_Init : PowerState :=
  { currentMode := .active, requestedMode := .active, idleCycles := 0 }

/-- `PowerManager_RequestMode`: overwrites `s_requestedMode` when the argument
differs from it; otherwise does nothing.  Never touches `s_currentMode`. -/
def PowerManager_RequestMode (s : PowerState) (mode : PowerMode_t) : PowerState :=
  if mode ≠ s.requestedMode then { s with requestedMode := mode } else s

/-- `PowerManager_GetCurrentMode`: pure accessor. -/
def PowerManager_GetCurrentMode (s : PowerState) : PowerMode_t :=
  s.currentMode

/-- `PowerManager_Update`: if requested ≠ current, applies the requested mode
and resets the idle-cycle counter; otherwise increments the counter
(a `uint32_t` increment, hence modulo `2 ^ 32`). -/
def PowerManager_Update (s : PowerState) : PowerState :=
  if s.requestedMode ≠ s.currentMode then
    { s with currentMode := s.requestedMode, idleCycles := 0 }
  else
    { s with idleCycles := (s.idleCycles + 1) % 2 ^ 32 }

/-! ## Log gate (`log.c`) -/

/-- The log module's state: the statics of `log.c`.  `uartInit` models
whether `s_logUart` is non-NULL (it is NULL until `Log_Init` is called;
`Log_Init` stores the handle passed by startup code). -/
structure LogState : Type where
  uartInit : Bool
  minLevel : LogLevel_t
  enabled : Bool
deriving DecidableEq, Repr

/-- The statics' initializers in `log.c`: `s_logUart = NULL`,
`s_minLevel = LOG_LEVEL_INFO`, `s_enabled = false`. -/
def logStartupState : LogState :=
  { uartInit := false, minLevel := .info, enabled := false }

/-- `Log_Init`: stores the UART handle; changes nothing else. -/
def Log_Init (s : LogState) : LogState :=
  { s with uartInit := true }

/-- `Log_SetLevel`. -/
def Log_SetLevel (s : LogState) (level : LogLevel_t) : LogState :=
  { s with minLevel := level }

/-- `Log_GetLevel`. -/
def Log_GetLevel (s : LogState) : LogLevel_t :=
  s.minLevel

/-- `Log_Enable`. -/
def Log_Enable (s : LogState) (enable : Bool) : LogState :=
  { s with enabled := enable }

/-- `Log_IsEnabled`. -/
def Log_IsEnabled (s : LogState) : Bool :=
  s.enabled

/-- The observable effect of one `Log_Print` call: whether the formatted
line was transmitted over the UART, and whether the redraw hook
`CLI_OnExternalOutput` was invoked afterwards. -/
structure LogPrintEffect : Type where
  emitted : Bool
  redrawHook : Bool
deriving DecidableEq, Repr

/-- `Log_Print` from `log.c`, by its guards: returns immediately when
`s_logUart == NULL`; returns when `!s_enabled || level < s_minLevel`;
otherwise transmits the line and then calls `CLI_OnExternalOutput()`.
(The `vsnprintf` formatting step is modelled as always succeeding; it cannot
fail for the repository's format strings.)  `Log_Print` reads but never
writes the module state, so the state is not part of the result. -/
def Log_Print (s : LogState) (level : LogLevel_t) : LogPrintEffect :=
  if s.uartInit = false then
    { emitted := false, redrawHook := false }
  else if s.enabled = false ∨ level.toNat < s.minLevel.toNat then
    { emitted := false, redrawHook := false }
  else
    { emitted := true, redrawHook := true }

/-! ## Cooperative task manager (`app_task_manager.c`) -/

/-- `uint32_t` wrap-tolerant subtraction `a - b`, the C unsigned arithmetic
used for `elapsed = now_ms - task->lastRun_ms`. -/
def sub32 (a b : Nat) : Nat :=
  (a % 2 ^ 32 + 2 ^ 32 - b % 2 ^ 32) % 2 ^ 32

/-- `AppTaskDescriptor_t` from `app_task_manager.h`, restricted to the fields
the scheduler reads and writes.  `id` stands for the task's identity (its
`name` / `function` pointer) and is used only to record which task bodies
were invoked. -/
structure AppTaskDescriptor_t : Type where
  id : Nat
  period_ms : Nat
  lastRun_ms : Nat
deriving DecidableEq, Repr

/-- One observable scheduler action inside `AppTaskManager_RunOnce`:
writing `task->lastRun_ms = now_ms`, or calling `task->function()`. -/
inductive SchedEv : Type
  | setLastRun (id now : Nat)
  | invoke (id : Nat)
deriving DecidableEq, Repr

/-- `AppTaskManager_RunOnce`: reads `now_ms` once, then iterates over the
registered tasks in registration order; for each, computes
`elapsed = now_ms - task->lastRun_ms` with unsigned subtraction, and when
`elapsed >= task->period_ms` first sets `lastRun_ms = now_ms` and then
invokes the task body.  (The NULL-slot skip in the loop is vacuous here:
the registered list holds only non-null descriptors, since
`AppTaskManager_RegisterTask` rejects NULL.)  Returns the updated task list
together with the ordered trace of scheduler actions. -/
def AppTaskManager_RunOnce (now_ms : Nat) :
    List AppTaskDescriptor_t → List AppTaskDescriptor_t × List SchedEv
  | [] => ([], [])
  | task :: rest =>
    let r := AppTaskManager_RunOnce now_ms rest
    if task.period_ms ≤ sub32 now_ms task.lastRun_ms then
      ({ task with lastRun_ms := now_ms } :: r.1,
        SchedEv.setLastRun task.id now_ms :: SchedEv.invoke task.id :: r.2)
    else
      (task :: r.1, r.2)

/-- The due-test of `AppTaskManager_RunOnce` for a single descriptor:
`elapsed >= period_ms` with wrap-tolerant `elapsed`. -/
def taskDue (now_ms : Nat) (task : AppTaskDescriptor_t) : Bool :=
  task.period_ms ≤ sub32 now_ms task.lastRun_ms

/-! ## Command interpreter (`cli.c`) -/

/-- Whitespace test used by `CLI_Trim`: space or horizontal tab. -/
def isSpaceOrTab (c : Char) : Bool :=
  c = ' ' || c = '\t'

/-- `CLI_Trim`: removes leading and trailing spaces/tabs (in the C, in place
via pointer walk and `memmove`; here, on the character list). -/
def CLI_Trim (l : List Char) : List Char :=
  ((l.dropWhile isSpaceOrTab).reverse.dropWhile isSpaceOrTab).reverse

/-- The per-character mapping of `CLI_ToLower`: `'A'..'Z'` map to
`*p - 'A' + 'a'`; everything else is unchanged. -/
def cliLowerChar (c : Char) : Char :=
  if 'A' ≤ c ∧ c ≤ 'Z' then Char.ofNat (c.toNat + 32) else c

/-- `CLI_ToLower`: lower-cases every character in place. -/
def CLI_ToLower (l : List Char) : List Char :=
  l.map cliLowerChar

/-- The sensor-period table of the `status` command in `CLI_HandleLine`
(`SENSOR_PERIOD_*_MS` from `app_config.h`; the `switch` maps its `default`
arm to the STOP period). -/
def sensorPeriodForMode : PowerMode_t → Nat
  | .active => 1000
  | .idle => 5000
  | .sleep => 30000
  | .stop => 0

/-- An input line that matches no grammar rule of `CLI_HandleLine`: after
trimming and lower-casing it is non-empty, is not `help` or `status`, and
does not carry the `log ` or `pmode ` command prefix (the `strncmp`
prefix tests).  Such a line falls through every dispatch branch to the
final unknown-command report.  Decidable conjunct by conjunct. -/
def matchesNoRule (input : List Char) : Prop :=
  (CLI_ToLower (CLI_Trim input)).length ≠ 0
  ∧ CLI_ToLower (CLI_Trim input) ≠ "help".toList
  ∧ (CLI_ToLower (CLI_Trim input)).take 4 ≠ "log ".toList
  ∧ (CLI_ToLower (CLI_Trim input)).take 6 ≠ "pmode ".toList
  ∧ CLI_ToLower (CLI_Trim input) ≠ "status".toList

/-- One user-visible CLI response, i.e. one `CLI_Print` call site of
`CLI_HandleLine`, with the data interpolated into its format string.
(`helpText` stands for the whole block of help lines.) -/
inductive CliResponse : Type
  | helpText
  | logDisabled
  | logEnabledAt (level : LogLevel_t)
  | logPausedMsg
  | alreadyPaused
  | logResumed
  | notPaused
  | unknownLogOption (arg : List Char)
  | requestedPmode (arg : List Char)
  | unknownPowerMode (arg : List Char)
  | statusReport (enabled : Bool) (level : LogLevel_t)
      (mode : PowerMode_t) (period_ms : Nat)
  | unknownCommand (line : List Char)
deriving DecidableEq, Repr

/-- The mutable state `CLI_HandleLine` can read or write: the log gate, the
power manager, and the CLI statics `s_logPaused`, `s_prevLogEnabled`,
`s_prevLogLevel` from `cli.c`. -/
structure CliState : Type where
  log : LogState
  power : PowerState
  logPaused : Bool
  prevLogEnabled : Bool
  prevLogLevel : LogLevel_t
deriving DecidableEq, Repr

/-- The statics' initializers at process start: the log gate and power
manager startup values together with `s_logPaused = false`,
`s_prevLogEnabled = false`, `s_prevLogLevel = LOG_LEVEL_INFO`. -/
def cliStartupState : CliState :=
  { log := logStartupState
    power := PowerManager_Init
    logPaused := false
    prevLogEnabled := false
    prevLogLevel := .info }

/-- `CLI_HandleLine` from `cli.c`: trims and lower-cases the line, discards
it if empty, then matches `help`, the `log ` commands, the `pmode `
commands, `status`, and finally reports an unknown command naming the
(processed) line.  Returns the new state and the responses printed. -/
def CLI_HandleLine (st : CliState) (input : List Char) : CliState × List CliResponse :=
  let line := CLI_ToLower (CLI_Trim input)
  if line.length = 0 then
    (st, [])
  else if line = "help".toList then
    (st, [.helpText])
  else if line.take 4 = "log ".toList then
    let arg := CLI_Trim (line.drop 4)
    if arg = "off".toList then
      ({ st with log := Log_Enable st.log false, logPaused := false },
        [.logDisabled])
    else if arg = "error".toList then
      ({ st with log := Log_Enable (Log_SetLevel st.log .error) true,
                 logPaused := false },
        [.logEnabledAt .error])
    else if arg = "warn".toList then
      ({ st with log := Log_Enable (Log_SetLevel st.log .warn) true,
                 logPaused := false },
        [.logEnabledAt .warn])
    else if arg = "info".toList then
      ({ st with log := Log_Enable (Log_SetLevel st.log .info) true,
                 logPaused := false },
        [.logEnabledAt .info])
    else if arg = "debug".toList then
      ({ st with log := Log_Enable (Log_SetLevel st.log .debug) true,
                 logPaused := false },
        [.logEnabledAt .debug])
    else if arg = "pause".toList then
      if st.logPaused = false then
        ({ st with prevLogEnabled := Log_IsEnabled st.log
                   prevLogLevel := Log_GetLevel st.log
                   log := Log_Enable st.log false
                   logPaused := true },
          [.logPausedMsg])
      else
        (st, [.alreadyPaused])
    else if arg = "resume".toList then
      if st.logPaused = true then
        ({ st with log := Log_Enable (Log_SetLevel st.log st.prevLogLevel)
                            st.prevLogEnabled
                   logPaused := false },
          [.logResumed])
      else
        (st, [.notPaused])
    else
      (st, [.unknownLogOption arg])
  else if line.take 6 = "pmode ".toList then
    let arg := CLI_Trim (line.drop 6)
    if arg = "active".toList then
      ({ st with power := PowerManager_RequestMode st.power .active },
        [.requestedPmode arg])
    else if arg = "idle".toList then
      ({ st with power := PowerManager_RequestMode st.power .idle },
        [.requestedPmode arg])
    else if arg = "sleep".toList then
      ({ st with power := PowerManager_RequestMode st.power .sleep },
        [.requestedPmode arg])
    else if arg = "stop".toList then
      ({ st with power := PowerManager_RequestMode st.power .stop },
        [.requestedPmode arg])
    else
      (st, [.unknownPowerMode arg])
  else if line = "status".toList then
    (st, [.statusReport (Log_IsEnabled st.log) (Log_GetLevel st.log)
            (PowerManager_GetCurrentMode st.power)
            (sensorPeriodForMode (PowerManager_GetCurrentMode st.power))])
  else
    (st, [.unknownCommand line])

/-! ## Scheduler lemmas -/

/-- The event trace of `AppTaskManager_RunOnce`: the due tasks, in
registration order, each contributing its `lastRun` write followed by its
invocation. -/
theorem runOnce_trace_eq (now : Nat) (ts : List AppTaskDescriptor_t) :
    (AppTaskManager_RunOnce now ts).2
      = (ts.filter (taskDue now)).flatMap
          (fun t => [SchedEv.setLastRun t.id now, SchedEv.invoke t.id]) := by
  induction ts with
  | nil => rfl
  | cons t rest ih =>
    by_cases h : t.period_ms ≤ sub32 now t.lastRun_ms <;>
      simp [AppTaskManager_RunOnce, taskDue, h, ih]

/-- The task list after `AppTaskManager_RunOnce`: due tasks have their
`lastRun_ms` stamped with `now`, the rest are untouched. -/
theorem runOnce_tasks_eq (now : Nat) (ts : List AppTaskDescriptor_t) :
    (AppTaskManager_RunOnce now ts).1
      = ts.map (fun t => if taskDue now t then { t with lastRun_ms := now } else t) := by
  induction ts with
  | nil => rfl
  | cons t rest ih =>
    by_cases h : t.period_ms ≤ sub32 now t.lastRun_ms <;>
      simp [AppTaskManager_RunOnce, taskDue, h, ih]

/-- The `log pause` dispatch of `CLI_HandleLine`, reduced to its branch on
`s_logPaused` (everything up to that branch is concrete computation). -/
theorem handleLine_pause_eq (s : CliState) :
    CLI_HandleLine s ['l', 'o', 'g', ' ', 'p', 'a', 'u', 's', 'e']
      = if s.logPaused = false
        then ({ s with prevLogEnabled := Log_IsEnabled s.log
                       prevLogLevel := Log_GetLevel s.log
                       log := Log_Enable s.log false
                       logPaused := true },
               [CliResponse.logPausedMsg])
        else (s, [CliResponse.alreadyPaused]) := rfl

/-! ## Claims -/

/-- C1: for every registered task list and every clock reading (wrapped
readings included), `AppTaskManager_RunOnce()` executes exactly the subset
of registered tasks whose wrap-tolerant elapsed time
`now - lastRun_ms (mod 2^32)` is `>= period_ms`, visits tasks in
registration order, and for each executed task sets its `lastRun_ms` to
`now` before invoking the task body (the `setLastRun` event precedes the
`invoke` event in the trace). -/
theorem runOnce_executes_exactly_due_tasks (now : Nat) (ts : List AppTaskDescriptor_t) :
    (AppTaskManager_RunOnce now ts).2
      = (ts.filter (taskDue now)).flatMap
          (fun t => [SchedEv.setLastRun t.id now, SchedEv.invoke t.id])
    ∧ (AppTaskManager_RunOnce now ts).1
      = ts.map (fun t => if taskDue now t then { t with lastRun_ms := now } else t) :=
  ⟨runOnce_trace_eq now ts, runOnce_tasks_eq now ts⟩

/-- C2 counterexample: a registered task with `period_ms = 0` IS executed by
`AppTaskManager_RunOnce()` — here a task with `lastRun_ms = 5` at clock
reading 5 (elapsed 0 ≥ period 0), refuting "period 0 is never run". -/
theorem runOnce_period_zero_cex :
    (AppTaskManager_RunOnce 5 [⟨0, 0, 5⟩]).2
      = [SchedEv.setLastRun 0 5, SchedEv.invoke 0] := by
  decide

/-- C2 amended: a registered task whose `period_ms` equals 0 is executed on
EVERY `AppTaskManager_RunOnce()` invocation (its elapsed time, being a
`uint32_t`, is always `>= 0`); period 0 means "always runs", not "never
runs". -/
theorem runOnce_period_zero_always_runs (now : Nat) (ts : List AppTaskDescriptor_t)
    (t : AppTaskDescriptor_t) (hmem : t ∈ ts) (hz : t.period_ms = 0) :
    SchedEv.invoke t.id ∈ (AppTaskManager_RunOnce now ts).2 := by
  rw [runOnce_trace_eq]
  refine List.mem_flatMap.2 ⟨t, List.mem_filter.2 ⟨hmem, ?_⟩, ?_⟩
  · simp [taskDue, hz]
  · simp

/-- C2 amended, witness: the concrete period-0 task of the counterexample is
executed. -/
theorem runOnce_period_zero_always_runs_witness :
    SchedEv.invoke 0 ∈ (AppTaskManager_RunOnce 5 [⟨0, 0, 5⟩]).2 :=
  runOnce_period_zero_always_runs 5 [⟨0, 0, 5⟩] ⟨0, 0, 5⟩ (by decide) (by decide)

/-- C3 counterexample: at process start (and still after `Log_Init`), the
log gate's enabled flag is `false`, not `true` as claimed — `log.c`
initializes `s_enabled = false` and nothing enables it at startup. -/
theorem startup_log_gate_not_enabled_cex :
    logStartupState.enabled ≠ true ∧ (Log_Init logStartupState).enabled ≠ true := by
  decide

/-- C3 amended: after process start / module initialization and before any
command or update, the current power mode is Active (and the requested mode
is Active, with a zero idle-cycle counter), the minimum log level is Info —
but the log gate is DISABLED (`s_enabled` initializes to `false`). -/
theorem startup_defaults :
    PowerManager_Init.currentMode = .active
    ∧ PowerManager_Init.requestedMode = .active
    ∧ PowerManager_Init.idleCycles = 0
    ∧ logStartupState.minLevel = .info
    ∧ logStartupState.enabled = false
    ∧ (Log_Init logStartupState).minLevel = .info
    ∧ (Log_Init logStartupState).enabled = false := by
  decide

/-- C4: from current mode Active with no pending request,
`PowerManager_RequestMode(Idle)` alone leaves the current mode Active; the
following `PowerManager_Update()` applies the transition to Idle and resets
the idle-cycle counter to 0; a further `PowerManager_Update()` with no new
request keeps the current mode Idle and only increments the idle-cycle
counter (requested mode also unchanged).  `PowerManager_RequestMode` never
changes the current mode of any state. -/
theorem power_idle_transition (s : PowerState)
    (hcur : s.currentMode = .active) (hreq : s.requestedMode = .active) :
    (PowerManager_RequestMode s .idle).currentMode = .active
    ∧ (PowerManager_Update (PowerManager_RequestMode s .idle)).currentMode = .idle
    ∧ (PowerManager_Update (PowerManager_RequestMode s .idle)).idleCycles = 0
    ∧ (PowerManager_Update (PowerManager_Update
        (PowerManager_RequestMode s .idle))).currentMode = .idle
    ∧ (PowerManager_Update (PowerManager_Update
        (PowerManager_RequestMode s .idle))).idleCycles = 1
    ∧ (PowerManager_Update (PowerManager_Update
        (PowerManager_RequestMode s .idle))).requestedMode
        = (PowerManager_Update (PowerManager_RequestMode s .idle)).requestedMode
    ∧ ∀ (s2 : PowerState) (m : PowerMode_t),
        (PowerManager_RequestMode s2 m).currentMode = s2.currentMode := by
  refine ⟨?_, ?_, ?_, ?_, ?_, ?_, ?_⟩
  · simp [PowerManager_RequestMode, hreq, hcur]
  · simp [PowerManager_RequestMode, PowerManager_Update, hreq, hcur]
  · simp [PowerManager_RequestMode, PowerManager_Update, hreq, hcur]
  · simp [PowerManager_RequestMode, PowerManager_Update, hreq, hcur]
  · simp [PowerManager_RequestMode, PowerManager_Update, hreq, hcur]
  · simp [PowerManager_RequestMode, PowerManager_Update, hreq, hcur]
  · intro s2 m
    by_cases h : m = s2.requestedMode <;> simp [PowerManager_RequestMode, h]

/-- C4 witness: the transition sequence applied to the initial power state. -/
theorem power_idle_transition_witness :
    (PowerManager_RequestMode PowerManager_Init .idle).currentMode = .active
    ∧ (PowerManager_Update (PowerManager_RequestMode
        PowerManager_Init .idle)).currentMode = .idle
    ∧ (PowerManager_Update (PowerManager_RequestMode
        PowerManager_Init .idle)).idleCycles = 0
    ∧ (PowerManager_Update (PowerManager_Update
        (PowerManager_RequestMode PowerManager_Init .idle))).currentMode = .idle
    ∧ (PowerManager_Update (PowerManager_Update
        (PowerManager_RequestMode PowerManager_Init .idle))).idleCycles = 1
    ∧ (PowerManager_Update (PowerManager_Update
        (PowerManager_RequestMode PowerManager_Init .idle))).requestedMode
        = (PowerManager_Update (PowerManager_RequestMode
            PowerManager_Init .idle)).requestedMode
    ∧ ∀ (s2 : PowerState) (m : PowerMode_t),
        (PowerManager_RequestMode s2 m).currentMode = s2.currentMode :=
  power_idle_transition PowerManager_Init rfl rfl

/-- C5: dispatching the line `"LOG DEBUG"` (upper case, exercising the
case-insensitive path) enables the log gate at level Debug; from that state,
dispatching `"log pause"` and then `"log resume"` restores exactly
`enabled = true` and `level = Debug`. -/
theorem cli_log_debug_pause_resume_roundtrip (st : CliState) :
    (CLI_HandleLine st ("LOG DEBUG".toList)).1.log.enabled = true
    ∧ (CLI_HandleLine st ("LOG DEBUG".toList)).1.log.minLevel = .debug
    ∧ (CLI_HandleLine (CLI_HandleLine (CLI_HandleLine st
        ("LOG DEBUG".toList)).1 ("log pause".toList)).1
        ("log resume".toList)).1.log.enabled = true
    ∧ (CLI_HandleLine (CLI_HandleLine (CLI_HandleLine st
        ("LOG DEBUG".toList)).1 ("log pause".toList)).1
        ("log resume".toList)).1.log.minLevel = .debug :=
  ⟨rfl, rfl, rfl, rfl⟩

/-- C6: starting from an unpaused state, the first `"log pause"` snapshots
the gate's enabled flag and level; a second `"log pause"` responds
"already paused" and changes nothing — the whole state, snapshot included,
is exactly the state after the first pause. -/
theorem cli_double_pause (st : CliState) (hnp : st.logPaused = false) :
    (CLI_HandleLine st ("log pause".toList)).1.prevLogEnabled = st.log.enabled
    ∧ (CLI_HandleLine st ("log pause".toList)).1.prevLogLevel = st.log.minLevel
    ∧ (CLI_HandleLine (CLI_HandleLine st ("log pause".toList)).1
        ("log pause".toList)).1
        = (CLI_HandleLine st ("log pause".toList)).1
    ∧ (CLI_HandleLine (CLI_HandleLine st ("log pause".toList)).1
        ("log pause".toList)).2
        = [CliResponse.alreadyPaused] := by
  simp [handleLine_pause_eq, hnp, Log_IsEnabled, Log_GetLevel]

/-- C6 witness: double pause from the process-start CLI state. -/
theorem cli_double_pause_witness :
    (CLI_HandleLine cliStartupState ("log pause".toList)).1.prevLogEnabled
        = cliStartupState.log.enabled
    ∧ (CLI_HandleLine cliStartupState ("log pause".toList)).1.prevLogLevel
        = cliStartupState.log.minLevel
    ∧ (CLI_HandleLine (CLI_HandleLine cliStartupState ("log pause".toList)).1
        ("log pause".toList)).1
        = (CLI_HandleLine cliStartupState ("log pause".toList)).1
    ∧ (CLI_HandleLine (CLI_HandleLine cliStartupState ("log pause".toList)).1
        ("log pause".toList)).2
        = [CliResponse.alreadyPaused] :=
  cli_double_pause cliStartupState rfl

/-- C7: with the log module initialized (UART handle set), `Log_Print`
transmits a message exactly when the gate is enabled and the message level
is at least the configured minimum level. -/
theorem log_print_emits_iff (s : LogState) (level : LogLevel_t)
    (hinit : s.uartInit = true) :
    (Log_Print s level).emitted = true
      ↔ (s.enabled = true ∧ s.minLevel.toNat ≤ level.toNat) := by
  by_cases he : s.enabled = false
  · simp [Log_Print, hinit, he]
  · by_cases hl : level.toNat < s.minLevel.toNat
    · simp [Log_Print, hinit, hl, Nat.not_le.2 hl]
    · have he2 : s.enabled = true := by
        cases hb : s.enabled
        · exact absurd hb he
        · rfl
      simp [Log_Print, hinit, he2, hl, Nat.not_lt.1 hl]

/-- C7 witness: an initialized, enabled gate at minimum level Info emits a
Warn message. -/
theorem log_print_emits_iff_witness :
    (Log_Print { uartInit := true, minLevel := .info, enabled := true } .warn).emitted
        = true
      ↔ (({ uartInit := true, minLevel := .info, enabled := true } : LogState).enabled
            = true
          ∧ ({ uartInit := true, minLevel := .info, enabled := true }
              : LogState).minLevel.toNat ≤ LogLevel_t.warn.toNat) :=
  log_print_emits_iff { uartInit := true, minLevel := .info, enabled := true }
    .warn rfl

/-- C8: dispatching ANY input line that matches no grammar rule (non-empty
after trimming, not `help` or `status`, not `log `- or `pmode `-prefixed)
produces exactly one unknown-command response naming the offending
(trimmed, lower-cased) input, and returns the state — log gate, pause
flag, snapshot and power manager — completely unchanged. -/
theorem cli_unmatched_line_unknown_command (st : CliState) (input : List Char)
    (h : matchesNoRule input) :
    CLI_HandleLine st input
      = (st, [CliResponse.unknownCommand (CLI_ToLower (CLI_Trim input))]) := by
  obtain ⟨h0, h1, h2, h3, h4⟩ := h
  simp only [CLI_HandleLine]
  rw [if_neg h0, if_neg h1, if_neg h2, if_neg h3, if_neg h4]

/-- C8 witness: the line `"frobnicate"` matches no rule and is reported as
an unknown command, verbatim, with the state untouched. -/
theorem cli_unmatched_line_unknown_command_witness :
    CLI_HandleLine cliStartupState ("frobnicate".toList)
      = (cliStartupState,
          [CliResponse.unknownCommand (CLI_ToLower (CLI_Trim ("frobnicate".toList)))]) :=
  cli_unmatched_line_unknown_command cliStartupState ("frobnicate".toList)
    ⟨by decide, by decide, by decide, by decide, by decide⟩

/-- C9: a line consisting only of spaces and tabs trims to the empty line
and is silently discarded — `CLI_HandleLine` produces no response at all
and leaves the state unchanged. -/
theorem cli_whitespace_line_silent (st : CliState) (l : List Char)
    (h : ∀ c ∈ l, isSpaceOrTab c = true) :
    CLI_HandleLine st l = (st, []) := by
  have htrim : CLI_Trim l = [] := by
    have h1 : l.dropWhile isSpaceOrTab = [] :=
      List.dropWhile_eq_nil_iff.2 h
    simp [CLI_Trim, h1]
  simp [CLI_HandleLine, htrim, CLI_ToLower]

/-- C9 witness: the concrete line `"  \t "` is silently discarded from the
process-start CLI state. -/
theorem cli_whitespace_line_silent_witness :
    CLI_HandleLine cliStartupState ("  \t ".toList) = (cliStartupState, []) :=
  cli_whitespace_line_silent cliStartupState ("  \t ".toList) (by decide)

/-- C10: while the log module is uninitialized (`s_logUart == NULL`),
`Log_Print` is a total no-op for every gate configuration and level: nothing
is emitted and the redraw hook is not invoked (and `Log_Print` never writes
any module state). -/
theorem log_print_uninit_noop (s : LogState) (level : LogLevel_t)
    (h : s.uartInit = false) :
    Log_Print s level = { emitted := false, redrawHook := false } := by
  simp [Log_Print, h]

/-- C10 witness: an Error-level message at process start (before `Log_Init`)
does nothing, even though Error passes any level filter. -/
theorem log_print_uninit_noop_witness :
    Log_Print { logStartupState with enabled := true } .error
      = { emitted := false, redrawHook := false } :=
  log_print_uninit_noop { logStartupState with enabled := true } .error rfl

end SensorHub
